import Mathlib

/-!
# MD_RobotEyes: the animation engine of the robot-eyes example

A shallow embedding of `examples/Led_Matrix_RobotEyes/MD_RobotEyes.h`.

The header defines the data model (`emotion_t`, `animState_t`, `animFrame_t`,
`animTable_t`, the member variables of `MD_RobotEyes`) and the four inline
configuration methods `setAnimation`, `setBlinkTime`, `setAutoBlink` and
`setText`.  These are embedded from the code.

The header only declares `runAnimation`, `loadSequence`, the constructor and
the static sequence tables.  Their bodies are modelled from the written
specification of the engine; every such definition says so in its doc comment.

Conventions:
* a C++ member function `T f(args)` becomes `f : MD_RobotEyes → args → ...`
  returning the new object state (and the returned value, when there is one);
* `uint8_t`, `uint16_t`, `uint32_t` are `Nat` reduced modulo `2^8`, `2^16`,
  `2^32` where a value is converted to the type, `int8_t` is `Int` wrapped to
  `[-128, 128)`;
* a `const char *` is `Option Nat`: `none` is `nullptr`, `some a` is the
  address `a`.  The engine never reads through the pointer in the embedded
  code, so the address is all that matters.
-/

namespace MD_RobotEyes

/-! ## Data model (from the header) -/

/-- Emotions enumerated type `emotion_t`, in declaration order. -/
inductive emotion_t where
  | E_NONE
  | E_NEUTRAL
  | E_BLINK
  | E_WINK
  | E_LOOK_L
  | E_LOOK_R
  | E_LOOK_U
  | E_LOOK_D
  | E_ANGRY
  | E_SAD
  | E_EVIL
  | E_EVIL2
  | E_SQUINT
  | E_DEAD
  | E_SCAN_UD
  | E_SCAN_LR
  deriving DecidableEq, Repr

/-- Animation FSM state `animState_t`. -/
inductive animState_t where
  | S_IDLE
  | S_RESTART
  | S_ANIMATE
  | S_PAUSE
  | S_TEXT
  deriving DecidableEq, Repr

/-- An animation frame `animFrame_t`: `eyeData[2]` (index 0 is the right eye,
index 1 the left eye) and the frame time in milliseconds. -/
structure animFrame_t where
  eyeData0 : Nat
  eyeData1 : Nat
  timeFrame : Nat
  deriving DecidableEq, Repr

/-- An entry of the animation sequence lookup table, `animTable_t`.  The C
pointer `seq` to the frame array is the list of frames it points to; `size`
is the separately stored `uint8_t` length. -/
structure animTable_t where
  e : emotion_t
  seq : List animFrame_t
  size : Nat
  deriving DecidableEq, Repr

/-- A `const char *`: `none` is `nullptr`. -/
abbrev TextPtr := Option Nat

end MD_RobotEyes

/-- The member variables of class `MD_RobotEyes`, in declaration order. -/
structure MD_RobotEyes where
  _M : Nat
  _sd : Nat
  _timeStartPause : Nat
  _timeLastAnimation : Nat
  _timeBlinkMinimum : Nat
  _animState : MD_RobotEyes.animState_t
  _autoBlink : Bool
  _scrollDelay : Nat
  _animEntry : MD_RobotEyes.animTable_t
  _animIndex : Int
  _animReverse : Bool
  _autoReverse : Bool
  _nextEmotion : MD_RobotEyes.emotion_t
  _pText : MD_RobotEyes.TextPtr
  deriving DecidableEq, Repr

namespace MD_RobotEyes

/-! ## The inline configuration methods (from the header) -/

/-- Method `setAnimation(emotion_t e, bool r, bool b = false)`. -/
def setAnimation (s : MD_RobotEyes) (e : emotion_t) (r : Bool) (b : Bool := false) :
    MD_RobotEyes :=
  { s with _nextEmotion := e, _autoReverse := r, _animReverse := b }

/-- Method `setBlinkTime(uint16_t t)`.  The argument is converted to
`uint16_t` at the call. -/
def setBlinkTime (s : MD_RobotEyes) (t : Nat) : MD_RobotEyes :=
  { s with _timeBlinkMinimum := t % 2 ^ 16 }

/-- Method `setAutoBlink(bool b)`. -/
def setAutoBlink (s : MD_RobotEyes) (b : Bool) : MD_RobotEyes :=
  { s with _autoBlink := b }

/-- Method `setText(const char *pText)`: the new object state and the returned
`bool`. -/
def setText (s : MD_RobotEyes) (pText : TextPtr) : MD_RobotEyes × Bool :=
  if s._pText ≠ none then
    (s, false)
  else
    ({ s with _pText := pText }, true)

end MD_RobotEyes

namespace MD_RobotEyes

/-! ## The sequence table and the animation FSM (modelled from the specification)

The header declares `loadSequence`, `runAnimation`, the constructor and the
static tables, but their definitions are not part of the sources at hand.  The
definitions of this section follow the specification's description of the
Sequence Table (section 4.1) and of the Animation Engine (section 4.2), over
the member variables the header declares. -/

/-- Modelled from the spec: the static data of the engine that the header only
declares.  `lookupTable` is the registry `static const animTable_t lookupTable[]`
(one entry per emotion, each with its frame sequence and `uint8_t` length);
`pauseFloor` is the fixed, non-configurable settle duration of the PAUSE state
in milliseconds.  Neither value is given by the spec, so both are parameters. -/
structure StaticData where
  lookupTable : List animTable_t
  pauseFloor : Nat
  deriving Repr

/-- Modelled from the spec: what one call of the polling entry point reads from
its collaborators.  `millis` is the reading of the millisecond clock, `random`
the random extra delay drawn before an idle blink, and `textDone` tells whether
the display collaborator reports that the text has scrolled fully off. -/
structure Env where
  millis : Nat
  random : Nat
  textDone : Bool
  deriving Repr

/-- Conversion of an integer to `int8_t` (two's complement wraparound). -/
def toInt8 (x : Int) : Int :=
  (x + 128) % 256 - 128

/-- Modelled from the spec: wraparound-safe elapsed time, the `uint32_t`
subtraction `now - since` of two clock readings. -/
def elapsed (now since : Nat) : Nat :=
  (now % 2 ^ 32 + 2 ^ 32 - since % 2 ^ 32) % 2 ^ 32

/-- The zero-length lookup result. -/
def emptyEntry : animTable_t :=
  ⟨emotion_t.E_NONE, [], 0⟩

/-- Modelled from the spec: the Sequence Table contract
`lookup(emotion) -> (Sequence, length)`.  The table is searched for the entry
of the emotion; an emotion without an entry resolves to the zero-length
result. -/
def lookup (table : List animTable_t) (e : emotion_t) : animTable_t :=
  match table.find? (fun t => decide (t.e = e)) with
  | some t => t
  | none => emptyEntry

/-- Modelled from the spec: `uint8_t loadSequence(emotion_t e)`, declared in the
header with the comment "Return the size of the sequence".  It resolves the
emotion through the Sequence Table, makes the result the active sequence entry
and returns its length. -/
def loadSequence (table : List animTable_t) (s : MD_RobotEyes) (e : emotion_t) :
    MD_RobotEyes × Nat :=
  ({ s with _animEntry := lookup table e }, (lookup table e).size)

/-- Modelled from the spec: the hold duration of the frame at the current
index of the active sequence (zero when the sequence has no such frame). -/
def currentHold (s : MD_RobotEyes) : Nat :=
  match s._animEntry.seq.get? s._animIndex.toNat with
  | some f => f.timeFrame
  | none => 0

/-- Modelled from the spec: the IDLE state.  A requested emotion sends the FSM
to RESTART; else, with auto-blink enabled and more than the blink minimum plus
the random extra delay elapsed since the last animation, a BLINK request
(auto-reverse, played forward) is recorded and the FSM goes to RESTART; else
pending text sends it to TEXT; else it remains in IDLE. -/
def stepIdle (env : Env) (s : MD_RobotEyes) : MD_RobotEyes :=
  if s._nextEmotion ≠ emotion_t.E_NONE then
    { s with _animState := animState_t.S_RESTART }
  else if s._autoBlink = true ∧
      s._timeBlinkMinimum + env.random < elapsed env.millis s._timeLastAnimation then
    { setAnimation s emotion_t.E_BLINK true with _animState := animState_t.S_RESTART }
  else if s._pText ≠ none then
    { s with _animState := animState_t.S_TEXT }
  else
    s

/-- Modelled from the spec: the RESTART state.  The requested emotion is
resolved through the Sequence Table and the request is consumed.  An empty
result sends the FSM to IDLE; otherwise the frame index is set to the start
(forward) or to the end (reversed) of the sequence, the animation start time is
recorded and the FSM goes to ANIMATE. -/
def stepRestart (d : StaticData) (env : Env) (s : MD_RobotEyes) : MD_RobotEyes :=
  let r := loadSequence d.lookupTable s s._nextEmotion
  if r.2 = 0 then
    { r.1 with _nextEmotion := emotion_t.E_NONE, _animState := animState_t.S_IDLE }
  else
    { r.1 with
      _animIndex := if s._animReverse = true then toInt8 ((r.2 : Int) - 1) else 0,
      _timeLastAnimation := env.millis % 2 ^ 32,
      _nextEmotion := emotion_t.E_NONE,
      _animState := animState_t.S_ANIMATE }

/-- Modelled from the spec: the ANIMATE state.  While the hold duration of the
current frame has not elapsed nothing changes.  Otherwise the index advances in
the current direction.  When that leaves the sequence (past the final index, or
before index 0 when reversed): at the end of a forward pass with auto-reverse
set the direction flips and the same sequence is walked again from its end;
otherwise the FSM goes to PAUSE, holding the last rendered frame.  The time at
which the current frame was shown is kept in `_timeLastAnimation`, which
RESTART sets at the start of the animation; the pause start time is recorded
on entry to PAUSE. -/
def stepAnimate (env : Env) (s : MD_RobotEyes) : MD_RobotEyes :=
  if elapsed env.millis s._timeLastAnimation < currentHold s then
    s
  else
    let idx := toInt8 (if s._animReverse = true then s._animIndex - 1 else s._animIndex + 1)
    if (s._animReverse = false ∧ (s._animEntry.size : Int) ≤ idx) ∨
        (s._animReverse = true ∧ idx < 0) then
      if s._autoReverse = true ∧ s._animReverse = false then
        { s with
          _animReverse := true,
          _animIndex := toInt8 ((s._animEntry.size : Int) - 1),
          _timeLastAnimation := env.millis % 2 ^ 32 }
      else
        { s with
          _animState := animState_t.S_PAUSE,
          _timeStartPause := env.millis % 2 ^ 32 }
    else
      { s with _animIndex := idx, _timeLastAnimation := env.millis % 2 ^ 32 }

/-- Modelled from the spec: the PAUSE state.  The last frame is held for the
fixed settle duration; then the active sequence is cleared, the last-animation
time is recorded and the FSM goes to IDLE. -/
def stepPause (d : StaticData) (env : Env) (s : MD_RobotEyes) : MD_RobotEyes :=
  if elapsed env.millis s._timeStartPause < d.pauseFloor then
    s
  else
    { s with
      _animState := animState_t.S_IDLE,
      _animEntry := emptyEntry,
      _timeLastAnimation := env.millis % 2 ^ 32 }

/-- Modelled from the spec: the TEXT state.  When the text has scrolled fully
off, the pending text reference is cleared and the FSM goes to IDLE. -/
def stepText (env : Env) (s : MD_RobotEyes) : MD_RobotEyes :=
  if env.textDone = true then
    { s with _pText := none, _animState := animState_t.S_IDLE }
  else
    s

/-- Modelled from the spec: one FSM evaluation, by the current state. -/
def step (d : StaticData) (env : Env) (s : MD_RobotEyes) : MD_RobotEyes :=
  match s._animState with
  | animState_t.S_IDLE => stepIdle env s
  | animState_t.S_RESTART => stepRestart d env s
  | animState_t.S_ANIMATE => stepAnimate env s
  | animState_t.S_PAUSE => stepPause d env s
  | animState_t.S_TEXT => stepText env s

/-- Modelled from the spec: `bool runAnimation(void)`, the polling entry point
`advance() -> bool`, whose body is not in the header.  It performs one FSM
evaluation and returns true exactly when the engine is then in IDLE with no
pending work, false otherwise.  The result is the new object state and the
returned `bool`. -/
def runAnimation (d : StaticData) (env : Env) (s : MD_RobotEyes) : MD_RobotEyes × Bool :=
  let s1 := step d env s
  (s1, decide (s1._animState = animState_t.S_IDLE ∧ s1._nextEmotion = emotion_t.E_NONE ∧
    s1._pText = none))

/-- An engine at rest: FSM in `S_IDLE`, no sequence loaded, nothing requested,
no text pending. -/
def idleEngine : MD_RobotEyes :=
  { _M := 0, _sd := 0, _timeStartPause := 0, _timeLastAnimation := 0,
    _timeBlinkMinimum := 5000, _animState := .S_IDLE, _autoBlink := true,
    _scrollDelay := 0, _animEntry := ⟨.E_NONE, [], 0⟩, _animIndex := 0,
    _animReverse := false, _autoReverse := false, _nextEmotion := .E_NONE,
    _pText := none }

/-- An engine that already holds the text reference `100`. -/
def busyEngine : MD_RobotEyes :=
  { idleEngine with _pText := some 100 }

/-- An engine in the middle of a forward pass over a three-frame sequence. -/
def animatingEngine : MD_RobotEyes :=
  { idleEngine with
    _animState := .S_ANIMATE,
    _animEntry := ⟨.E_ANGRY, [⟨1, 1, 100⟩, ⟨2, 2, 100⟩, ⟨3, 3, 100⟩], 3⟩,
    _animIndex := 1 }

/-- C1: when a text reference is already pending, `setText` returns false for
every argument (null or not) and returns the engine state unchanged; the stored
reference is still the earlier one. -/
theorem setText_pending_fails (s : MD_RobotEyes) (pText : TextPtr)
    (h : s._pText ≠ none) :
    (setText s pText).2 = false ∧ (setText s pText).1 = s ∧
      (setText s pText).1._pText = s._pText := by
  simp [setText, h]

theorem setText_pending_fails_witness :
    busyEngine._pText ≠ none ∧
      ((setText busyEngine (some 7)).2 = false ∧ (setText busyEngine (some 7)).1 = busyEngine ∧
        (setText busyEngine (some 7)).1._pText = busyEngine._pText) :=
  ⟨by decide, setText_pending_fails busyEngine (some 7) (by decide)⟩

/-- C2: when no text is pending and `p` is a non-null reference, `setText`
returns true, stores exactly `p`, and changes no other field; and for every
state and argument `setText` returns true if and only if no text was pending. -/
theorem setText_free_stores (s : MD_RobotEyes) (p : Nat) (h : s._pText = none) :
    (setText s (some p)).2 = true ∧
      (setText s (some p)).1 = { s with _pText := some p } ∧
      (setText s (some p)).1._pText = some p ∧
      (setText s (some p)).1._animState = s._animState ∧
      (setText s (some p)).1._nextEmotion = s._nextEmotion ∧
      (setText s (some p)).1._autoReverse = s._autoReverse ∧
      (setText s (some p)).1._animReverse = s._animReverse ∧
      (setText s (some p)).1._animEntry = s._animEntry ∧
      (setText s (some p)).1._animIndex = s._animIndex ∧
      (setText s (some p)).1._timeBlinkMinimum = s._timeBlinkMinimum ∧
      (setText s (some p)).1._autoBlink = s._autoBlink ∧
      (setText s (some p)).1._timeStartPause = s._timeStartPause ∧
      (setText s (some p)).1._timeLastAnimation = s._timeLastAnimation ∧
      (∀ (t : MD_RobotEyes) (q : TextPtr), (setText t q).2 = true ↔ t._pText = none) := by
  refine ⟨?_, ?_, ?_, ?_, ?_, ?_, ?_, ?_, ?_, ?_, ?_, ?_, ?_, ?_⟩
  all_goals first
    | (simp [setText, h]; done)
    | (intro t q
       by_cases ht : t._pText = none <;> simp [setText, ht])

theorem setText_free_stores_witness :
    idleEngine._pText = none ∧ (setText idleEngine (some 42)).2 = true ∧
      (setText idleEngine (some 42)).1._pText = some 42 :=
  ⟨by decide, (setText_free_stores idleEngine 42 (by decide)).1,
    (setText_free_stores idleEngine 42 (by decide)).2.2.1⟩

/-- C3: after `setAnimation(e, r, b)` the recorded request is exactly
`(e, r, b)` whatever was recorded before, a second call overwrites the first
completely, and with `b` omitted the request is recorded with the start
reversed flag false. -/
theorem setAnimation_overwrites (s : MD_RobotEyes) (e1 e2 : emotion_t)
    (r1 r2 b1 b2 : Bool) :
    (setAnimation s e2 r2 b2)._nextEmotion = e2 ∧
      (setAnimation s e2 r2 b2)._autoReverse = r2 ∧
      (setAnimation s e2 r2 b2)._animReverse = b2 ∧
      setAnimation (setAnimation s e1 r1 b1) e2 r2 b2 = setAnimation s e2 r2 b2 ∧
      setAnimation s e2 r2 = setAnimation s e2 r2 false ∧
      (setAnimation s e2 r2)._animReverse = false := by
  refine ⟨rfl, rfl, rfl, rfl, rfl, rfl⟩

/-- C4 as stated fails: `setAnimation` writes its third argument into
`_animReverse`, the play direction flag of the sequence being animated, so a
call made while the FSM is in `S_ANIMATE` can flip the direction of the
in-flight sequence. -/
theorem setAnimation_in_flight_direction_counterexample :
    ¬ ∀ (s : MD_RobotEyes) (e : emotion_t) (r b : Bool),
        s._animState = animState_t.S_ANIMATE →
          (setAnimation s e r b)._animState = s._animState ∧
          (setAnimation s e r b)._animEntry = s._animEntry ∧
          (setAnimation s e r b)._animIndex = s._animIndex ∧
          (setAnimation s e r b)._animReverse = s._animReverse := by
  intro h
  have h4 := (h animatingEngine emotion_t.E_BLINK false true (by decide)).2.2.2
  revert h4
  decide

/-- C4 (amended): for every engine state in `S_ANIMATE` and every `(e, r, b)`,
`setAnimation(e, r, b)` leaves the FSM state, the active sequence entry and the
frame index as they were, and sets the play direction flag `_animReverse` to
`b`; the direction of the in-flight sequence is therefore kept exactly when `b`
equals the direction it already had. -/
theorem setAnimation_in_flight (s : MD_RobotEyes) (e : emotion_t) (r b : Bool)
    (h : s._animState = animState_t.S_ANIMATE) :
    (setAnimation s e r b)._animState = animState_t.S_ANIMATE ∧
      (setAnimation s e r b)._animState = s._animState ∧
      (setAnimation s e r b)._animEntry = s._animEntry ∧
      (setAnimation s e r b)._animIndex = s._animIndex ∧
      (setAnimation s e r b)._animReverse = b ∧
      ((setAnimation s e r b)._animReverse = s._animReverse ↔ b = s._animReverse) := by
  refine ⟨h, rfl, rfl, rfl, rfl, Iff.rfl⟩

theorem setAnimation_in_flight_witness :
    animatingEngine._animState = animState_t.S_ANIMATE ∧
      (setAnimation animatingEngine emotion_t.E_SAD true true)._animIndex = 1 ∧
      (setAnimation animatingEngine emotion_t.E_SAD true true)._animReverse = true :=
  ⟨by decide,
    (setAnimation_in_flight animatingEngine emotion_t.E_SAD true true (by decide)).2.2.2.1,
    (setAnimation_in_flight animatingEngine emotion_t.E_SAD true true (by decide)).2.2.2.2.1⟩

/-- C8: for every 16-bit `t`, `setBlinkTime(t)` sets the blink minimum to `t`
and changes nothing else; for every `b`, `setAutoBlink(b)` sets the auto-blink
flag to `b` and changes nothing else.  Neither changes the FSM state, the
pending playback request, the active sequence or the pending text. -/
theorem blink_setters_frame (s : MD_RobotEyes) (t : Nat) (b : Bool) (ht : t < 2 ^ 16) :
    setBlinkTime s t = { s with _timeBlinkMinimum := t } ∧
      setAutoBlink s b = { s with _autoBlink := b } ∧
      ((setBlinkTime s t)._animState = s._animState ∧
        (setBlinkTime s t)._nextEmotion = s._nextEmotion ∧
        (setBlinkTime s t)._autoReverse = s._autoReverse ∧
        (setBlinkTime s t)._animReverse = s._animReverse ∧
        (setBlinkTime s t)._animEntry = s._animEntry ∧
        (setBlinkTime s t)._animIndex = s._animIndex ∧
        (setBlinkTime s t)._pText = s._pText) ∧
      ((setAutoBlink s b)._animState = s._animState ∧
        (setAutoBlink s b)._nextEmotion = s._nextEmotion ∧
        (setAutoBlink s b)._autoReverse = s._autoReverse ∧
        (setAutoBlink s b)._animReverse = s._animReverse ∧
        (setAutoBlink s b)._animEntry = s._animEntry ∧
        (setAutoBlink s b)._animIndex = s._animIndex ∧
        (setAutoBlink s b)._pText = s._pText) := by
  refine ⟨?_, rfl, ⟨rfl, rfl, rfl, rfl, rfl, rfl, rfl⟩, ⟨rfl, rfl, rfl, rfl, rfl, rfl, rfl⟩⟩
  simp only [setBlinkTime, Nat.mod_eq_of_lt ht]

theorem blink_setters_frame_witness :
    (1234 : Nat) < 2 ^ 16 ∧
      setBlinkTime idleEngine 1234 = { idleEngine with _timeBlinkMinimum := 1234 } ∧
      setAutoBlink idleEngine false = { idleEngine with _autoBlink := false } :=
  ⟨by decide, (blink_setters_frame idleEngine 1234 false (by decide)).1,
    (blink_setters_frame idleEngine 1234 false (by decide)).2.1⟩

/-- C9: when no text is pending, `setText(nullptr)` returns true yet returns
the engine state unchanged, so no text is pending afterwards and a following
`setText(q)` returns true as well, for any `q`. -/
theorem setText_null_succeeds (s : MD_RobotEyes) (q : TextPtr) (h : s._pText = none) :
    (setText s none).2 = true ∧ (setText s none).1 = s ∧
      (setText s none).1._pText = none ∧
      (setText (setText s none).1 q).2 = true := by
  have hs : (setText s none).1 = s := by
    cases s
    simp_all [setText]
  refine ⟨by simp [setText, h], hs, by rw [hs]; exact h, ?_⟩
  rw [hs]
  simp [setText, h]

theorem setText_null_succeeds_witness :
    idleEngine._pText = none ∧
      ((setText idleEngine none).2 = true ∧ (setText idleEngine none).1 = idleEngine ∧
        (setText idleEngine none).1._pText = none ∧
        (setText (setText idleEngine none).1 (some 9)).2 = true) :=
  ⟨by decide, setText_null_succeeds idleEngine (some 9) (by decide)⟩

/-- C10: any two distinct operations among `setAnimation`, `setBlinkTime`,
`setAutoBlink` and `setText` commute: both orders give the same final engine
state, and `setText` returns the same boolean in both orders. -/
theorem config_ops_commute (s : MD_RobotEyes) (e : emotion_t) (r b a : Bool) (t : Nat)
    (p : TextPtr) :
    setBlinkTime (setAnimation s e r b) t = setAnimation (setBlinkTime s t) e r b ∧
      setAutoBlink (setAnimation s e r b) a = setAnimation (setAutoBlink s a) e r b ∧
      setAutoBlink (setBlinkTime s t) a = setBlinkTime (setAutoBlink s a) t ∧
      setText (setAnimation s e r b) p = (setAnimation (setText s p).1 e r b, (setText s p).2) ∧
      setText (setBlinkTime s t) p = (setBlinkTime (setText s p).1 t, (setText s p).2) ∧
      setText (setAutoBlink s a) p = (setAutoBlink (setText s p).1 a, (setText s p).2) := by
  refine ⟨rfl, rfl, rfl, ?_, ?_, ?_⟩
  all_goals
    by_cases h : s._pText = none
    · simp [setText, setAnimation, setBlinkTime, setAutoBlink, h]
    · simp [setText, setAnimation, setBlinkTime, setAutoBlink, h]

/-! ## Lemmas on the modelled FSM -/

/-- C5: for every engine state, `runAnimation()` returns true exactly when,
after the call, the FSM is in `S_IDLE`, no requested emotion is waiting to be
played and no text is pending; it returns false otherwise. -/
theorem runAnimation_true_iff_idle_no_work (d : StaticData) (env : Env) (s : MD_RobotEyes) :
    ((runAnimation d env s).2 = true ↔
        ((runAnimation d env s).1._animState = animState_t.S_IDLE ∧
          (runAnimation d env s).1._nextEmotion = emotion_t.E_NONE ∧
          (runAnimation d env s).1._pText = none)) ∧
      ((runAnimation d env s).2 = false ↔
        ¬ ((runAnimation d env s).1._animState = animState_t.S_IDLE ∧
          (runAnimation d env s).1._nextEmotion = emotion_t.E_NONE ∧
          (runAnimation d env s).1._pText = none)) := by
  constructor
  · simp [runAnimation]
  · simp [runAnimation]

end MD_RobotEyes
